import Mathlib

/-!
Verification development for the `diagrams` graph-construction layer
(`diagrams/__init__.py`).  The Python classes `Diagram`, `Cluster`, `Node`
and `Edge` are shallowly embedded: Python dicts become insertion-ordered
association lists, the graphviz `Digraph` collaborator becomes a record of
its name, statement body and attribute maps, the two `contextvars`
variables become an explicit `Ctx` record, and methods become pure Lean
functions (fallible ones return `Except PyErr`).
-/

namespace Diagrams

/-- Python exception kinds raised (or constructed) by the embedded code. -/
inductive PyErr where
  | environmentError
  | valueError
  | attributeError
deriving DecidableEq, Repr

/-! ## Python dicts as insertion-ordered association lists -/

/-- A Python `dict` with string keys and values: insertion-ordered
association list, at most one entry per key. -/
abbrev Dict := List (String × String)

/-- `m[k]` lookup (`None` when absent). -/
def dlookup (k : String) : Dict → Option String
  | [] => none
  | (k', v) :: rest => if k' = k then some v else dlookup k rest

/-- `m[k] = v`: overwrite in place when the key exists (Python dicts keep
the original position), append otherwise. -/
def dset (m : Dict) (k v : String) : Dict :=
  match m with
  | [] => [(k, v)]
  | (k', v') :: rest => if k' = k then (k, v) :: rest else (k', v') :: dset rest k v

/-- `m.update(overrides)`: set every key of `overrides` in order. -/
def dupdate (m : Dict) (overrides : Dict) : Dict :=
  overrides.foldl (fun acc kv => dset acc kv.1 kv.2) m

theorem dlookup_dset_self (m : Dict) (k v : String) :
    dlookup k (dset m k v) = some v := by
  induction m with
  | nil => simp [dset, dlookup]
  | cons hd tl ih =>
    by_cases h : hd.1 = k
    · simp [dset, dlookup, h]
    · simp [dset, dlookup, h, ih]

theorem dlookup_dset_ne (m : Dict) (k k' v : String) (h : k' ≠ k) :
    dlookup k (dset m k' v) = dlookup k m := by
  induction m with
  | nil => simp [dset, dlookup, h]
  | cons hd tl ih =>
    by_cases h2 : hd.1 = k'
    · simp [dset, dlookup, h2, h]
    · by_cases h3 : hd.1 = k <;> simp [dset, dlookup, h2, h3, ih, Ne.symm h]

/-! ## The graphviz `Digraph` collaborator (external), minimally embedded -/

/-- One statement of a graphviz graph body. -/
inductive Stmt where
  | nodeStmt (id label : String) (attrs : Dict)
  | edgeStmt (tail head : String) (attrs : Dict)
  | attrStmt (attrs : Dict)
deriving DecidableEq, Repr

/-- The slice of a graphviz `Digraph` object the embedded code observes. -/
structure Digraph where
  name : String
  body : List Stmt
  graph_attr : Dict
  node_attr : Dict
  edge_attr : Dict
deriving DecidableEq, Repr

/-- `Digraph(name)`: a fresh, empty graph. -/
def Digraph.fresh (name : String) : Digraph := ⟨name, [], [], [], []⟩

/-- `dot.edge(tail, head, **attrs)`: append an edge statement. -/
def Digraph.edge (g : Digraph) (tail head : String) (attrs : Dict) : Digraph :=
  { g with body := g.body ++ [Stmt.edgeStmt tail head attrs] }

/-- `dot.node(id, label=..., **attrs)`: append a node statement. -/
def Digraph.addNode (g : Digraph) (id label : String) (attrs : Dict) : Digraph :=
  { g with body := g.body ++ [Stmt.nodeStmt id label attrs] }

/-- `dot.attr(**attrs)`: append an attribute statement to the body. -/
def Digraph.attr (g : Digraph) (attrs : Dict) : Digraph :=
  { g with body := g.body ++ [Stmt.attrStmt attrs] }

/-! ## `Node` (which doubles as a cluster) and `Edge` -/

/-- A `Node` object's state: `_id`, `label`, `_attrs`, plus the cluster
fields it inherits from `Cluster.__init__` — `nodes` (the dict of owned
member nodes, in insertion order) and `subgraphs` (a list of graphviz
`Digraph` handles, since `Cluster.__exit__` passes `self.dot` to
`parent.subgraph`) — and its own `dot` handle. -/
inductive Node where
  | mk (id : String) (label : String) (attrs : Dict)
       (nodes : List Node) (subgraphs : List Digraph) (dot : Digraph)

def Node.nodeid : Node → String
  | .mk i _ _ _ _ _ => i

def Node.label : Node → String
  | .mk _ l _ _ _ _ => l

def Node.nattrs : Node → Dict
  | .mk _ _ a _ _ _ => a

def Node.nodes : Node → List Node
  | .mk _ _ _ ns _ _ => ns

def Node.subgraphs : Node → List Digraph
  | .mk _ _ _ _ sg _ => sg

def Node.dot : Node → Digraph
  | .mk _ _ _ _ _ d => d

/-- An `Edge` object's state: `node` (the source node, optional),
`forward`/`reverse` flags and the `_attrs` dict. -/
structure Edge where
  node : Option Node
  forward : Bool
  reverse : Bool
  _attrs : Dict

/-- `Edge._default_edge_attrs`. -/
def Edge.default_edge_attrs : Dict :=
  [("fontcolor", "#2D3436"), ("fontname", "Sans-Serif"), ("fontsize", "13")]

/-- `Edge.__init__(node, forward, reverse, label, color, style, **attrs)`. -/
def Edge.init (node : Option Node) (forward reverse : Bool)
    (label color style : String) (attrs : Dict) : Edge :=
  let a := dupdate [] Edge.default_edge_attrs
  let a := if label ≠ "" then dset a "label" label else a
  let a := if color ≠ "" then dset a "color" color else a
  let a := if style ≠ "" then dset a "style" style else a
  { node := node, forward := forward, reverse := reverse, _attrs := dupdate a attrs }

/-- The direction derivation inside the `Edge.attrs` getter, as a pure
function of the two flags. -/
def edgeDirection (forward reverse : Bool) : String :=
  if forward && reverse then "both"
  else if forward then "forward"
  else if reverse then "back"
  else "none"

/-- The `Edge.attrs` property: `{**self._attrs, "dir": direction}`. -/
def Edge.attrs (e : Edge) : Dict :=
  dset e._attrs "dir" (edgeDirection e.forward e.reverse)

/-! ## The two `contextvars` variables -/

/-- The identity of a diagram held in the diagram context variable:
its name and the `autolabel` flag (the only diagram fields that scope
lookups consult). -/
structure DiagRef where
  name : String
  autolabel : Bool
deriving DecidableEq, Repr

/-- An entity the cluster context variable can hold: `Cluster.__exit__`
stores `self._parent` there, which is either a cluster or the diagram. -/
inductive ScopeEnt where
  | clusterE (label : String) (depth : Nat)
  | diagramE (d : DiagRef)
deriving DecidableEq, Repr

/-- `Context.depth` of a scope entity: a cluster carries its computed
depth; a `Diagram` never sets `depth`, so it keeps the class default 0. -/
def ScopeEnt.depth : ScopeEnt → Nat
  | .clusterE _ d => d
  | .diagramE _ => 0

/-- The two `contextvars.ContextVar` cells.  The outer `Option` is
"has the variable ever been set" (`none` makes `.get()` raise
`LookupError`); the inner value is what was stored, which may itself be
Python `None`. -/
structure Ctx where
  diagramVar : Option (Option DiagRef)
  clusterVar : Option (Option ScopeEnt)
deriving DecidableEq, Repr

/-- `getdiagram()`: re-raises the unset case as `EnvironmentError`. -/
def getdiagram (ctx : Ctx) : Except PyErr (Option DiagRef) :=
  match ctx.diagramVar with
  | none => .error .environmentError
  | some v => .ok v

/-- `getcluster()`: an unset variable is a valid absence (`None`). -/
def getcluster (ctx : Ctx) : Option ScopeEnt :=
  match ctx.clusterVar with
  | none => none
  | some v => v

/-- `setdiagram(d)`. -/
def setdiagram (ctx : Ctx) (v : Option DiagRef) : Ctx :=
  { ctx with diagramVar := some v }

/-- `setcluster(c)`. -/
def setcluster (ctx : Ctx) (v : Option ScopeEnt) : Ctx :=
  { ctx with clusterVar := some v }

theorem getcluster_setcluster (ctx : Ctx) (v : Option ScopeEnt) :
    getcluster (setcluster ctx v) = v := rfl

/-! ## `Context` class constants and validation -/

/-- `Context.__directions`. -/
def directions : List String := ["TB", "BT", "LR", "RL"]

/-- `Context.__bgcolors`. -/
def bgcolors : List String := ["#E5F5FD", "#EBF3E7", "#ECE8F6", "#FDF7E3"]

/-- Python `str.upper()` over the ASCII strings this library compares:
uppercase every character. -/
def pyUpper (s : String) : String := ⟨s.data.map Char.toUpper⟩

/-- Python `str.lower()` over the ASCII strings this library compares:
lowercase every character. -/
def pyLower (s : String) : String := ⟨s.data.map Char.toLower⟩

/-- `Context._validate_direction`: `direction.upper() in self.__directions`. -/
def validate_direction (direction : String) : Bool :=
  directions.contains (pyUpper direction)

/-! ## `Cluster` (grouping) -/

/-- `Cluster._default_graph_attrs`. -/
def Cluster.default_graph_attrs : Dict :=
  [("shape", "box"), ("style", "rounded"), ("labeljust", "l"),
   ("pencolor", "#AEB6BE"), ("fontname", "Sans-Serif"), ("fontsize", "12")]

/-- A `Cluster` object's state after `__init__`. -/
structure Cluster where
  label : String
  nodes : List Node
  subgraphs : List Digraph
  dot : Digraph
  _parent : Option ScopeEnt
  depth : Nat

/-- The parent lookup block of `Cluster.__init__`:
`try: self._parent = getcluster() or getdiagram()
except EnvironmentError: self._parent = None`.
`x or y` returns `y` whenever `x` is `None`, so the grouping takes the
active grouping when set, else the active diagram (which may itself be
`None`); the `EnvironmentError` of an unset diagram variable is caught
and becomes `None`. -/
def Cluster.parentLookup (ctx : Ctx) : Option ScopeEnt :=
  match getcluster ctx with
  | some c => some c
  | none =>
    match getdiagram ctx with
    | .ok (some d) => some (.diagramE d)
    | .ok none => none
    | .error _ => none

/-- `Cluster.__init__(label, direction, graph_attr)`.  The parent lookup
never raises (a missing scope is swallowed, see `Cluster.parentLookup`);
only an invalid direction raises (`ValueError`). -/
def Cluster.init (ctx : Ctx) (label : String) (direction : String)
    (graph_attr : Dict) : Except PyErr Cluster :=
  let dot := Digraph.fresh ("cluster_" ++ label)
  let dot := { dot with graph_attr := dupdate dot.graph_attr Cluster.default_graph_attrs }
  let dot := { dot with graph_attr := dset dot.graph_attr "label" label }
  if validate_direction direction then
    let dot := { dot with graph_attr := dset dot.graph_attr "rankdir" direction }
    let parent : Option ScopeEnt := Cluster.parentLookup ctx
    let depth : Nat :=
      match parent with
      | some p => p.depth + 1
      | none => 0
    let coloridx := depth % bgcolors.length
    let dot := { dot with graph_attr := dset dot.graph_attr "bgcolor" (bgcolors.getD coloridx "") }
    let dot := { dot with graph_attr := dupdate dot.graph_attr graph_attr }
    .ok { label := label, nodes := [], subgraphs := [], dot := dot,
          _parent := parent, depth := depth }
  else
    .error .valueError

/-- The scope entity a cluster presents as when stored in the cluster
context variable. -/
def Cluster.asEnt (c : Cluster) : ScopeEnt := .clusterE c.label c.depth

/-- `Cluster.__enter__`: `_before_enter()` is a no-op for a plain
cluster; then `setcluster(self)`. -/
def Cluster.enter (c : Cluster) (ctx : Ctx) : Ctx :=
  setcluster ctx (some c.asEnt)

/-- The effect of `Cluster.__exit__` on the cluster context variable:
`setcluster(self._parent)` — the parent captured at construction time,
not the value the variable held when the scope was entered. -/
def Cluster.exitCtx (c : Cluster) (ctx : Ctx) : Ctx :=
  setcluster ctx c._parent

/-! ## `Diagram` -/

/-- `Diagram.__curvestyles`. -/
def curvestyles : List String := ["ortho", "curved"]

/-- `Diagram.__outformats`. -/
def outformats : List String := ["png", "jpg", "svg", "pdf", "dot"]

/-- `Diagram._validate_curvestyle`: `curvestyle.lower() in self.__curvestyles`. -/
def validate_curvestyle (curvestyle : String) : Bool :=
  curvestyles.contains (pyLower curvestyle)

/-- `Diagram._validate_outformat`: `outformat.lower() in self.__outformats`. -/
def validate_outformat (outformat : String) : Bool :=
  outformats.contains (pyLower outformat)

/-- The `outformat` argument: `Union[str, list]`. -/
inductive OutFormat where
  | single (s : String)
  | multi (l : List String)
deriving DecidableEq, Repr

/-- The outformat validation loop of `Diagram.__init__`: a list is
checked element by element, a single format directly. -/
def outformatOk : OutFormat → Bool
  | .single s => validate_outformat s
  | .multi l => l.all validate_outformat

/-- `Diagram._default_graph_attrs`. -/
def Diagram.default_graph_attrs : Dict :=
  [("pad", "2.0"), ("splines", "ortho"), ("nodesep", "0.60"), ("ranksep", "0.75"),
   ("fontname", "Sans-Serif"), ("fontsize", "15"), ("fontcolor", "#2D3436")]

/-- `Diagram._default_node_attrs`. -/
def Diagram.default_node_attrs : Dict :=
  [("shape", "box"), ("style", "rounded"), ("fixedsize", "true"),
   ("width", "1.4"), ("height", "1.4"), ("labelloc", "b"),
   ("imagescale", "true"), ("fontname", "Sans-Serif"),
   ("fontsize", "13"), ("fontcolor", "#2D3436")]

/-- `Diagram._default_edge_attrs`. -/
def Diagram.default_edge_attrs : Dict := [("color", "#7B8894")]

/-- A `Diagram` object's state after `__init__`. -/
structure Diagram where
  name : String
  filename : String
  dot : Digraph
  /-- `self.edges`: the dict keyed by node pairs, in insertion order. -/
  edges : List ((Node × Node) × Edge)
  outformat : OutFormat
  showFlag : Bool
  autolabel : Bool

/-- The filename derivation at the top of `Diagram.__init__`:
`"diagrams_image"` when both are empty, else
`"_".join(name.split()).lower()` when only `filename` is empty. -/
def Diagram.deriveFilename (name filename : String) : String :=
  if name = "" ∧ filename = "" then "diagrams_image"
  else if filename = "" then
    pyLower (String.intercalate "_" ((name.split (· = ' ')).filter (· ≠ "")))
  else filename

/-- `Diagram.__init__`.  On a validation failure the raised
`ValueError` is paired with the `Digraph` state already built at the
point of the raise, so that mutation-before-validation is observable. -/
def Diagram.init (name filename direction curvestyle : String)
    (outformat : OutFormat) (autolabel showArg strict : Bool)
    (graph_attr node_attr edge_attr : Dict) :
    Except (PyErr × Digraph) Diagram :=
  let _ := strict
  let filename := Diagram.deriveFilename name filename
  -- super().__init__(name, filename=filename, strict=strict); self.edges = {}
  let dot := Digraph.fresh name
  -- self.dot.attr(compound="true")
  let dot := dot.attr [("compound", "true")]
  -- default graph/node/edge attribute loops and the label
  let dot := { dot with graph_attr := dupdate dot.graph_attr Diagram.default_graph_attrs }
  let dot := { dot with graph_attr := dset dot.graph_attr "label" name }
  let dot := { dot with node_attr := dupdate dot.node_attr Diagram.default_node_attrs }
  let dot := { dot with edge_attr := dupdate dot.edge_attr Diagram.default_edge_attrs }
  if validate_direction direction then
    let dot := { dot with graph_attr := dset dot.graph_attr "rankdir" direction }
    if validate_curvestyle curvestyle then
      let dot := { dot with graph_attr := dset dot.graph_attr "splines" curvestyle }
      if outformatOk outformat then
        -- merge passed in attributes
        let dot := { dot with graph_attr := dupdate dot.graph_attr graph_attr }
        let dot := { dot with node_attr := dupdate dot.node_attr node_attr }
        let dot := { dot with edge_attr := dupdate dot.edge_attr edge_attr }
        .ok { name := name, filename := filename, dot := dot, edges := [],
              outformat := outformat, showFlag := showArg, autolabel := autolabel }
      else .error (.valueError, dot)
    else .error (.valueError, dot)
  else .error (.valueError, dot)

/-- `Diagram.connect(node, node2, edge)`: the body is a single
`self.dot.edge(node.nodeid, node2.nodeid, **edge.attrs)` call — the edge
is drawn immediately and `self.edges` is never touched. -/
def Diagram.connect (d : Diagram) (node node2 : Node) (edge : Edge) : Diagram :=
  { d with dot := d.dot.edge node.nodeid node2.nodeid edge.attrs }

/-! ## `Cluster.nodes_iter` and the `Diagram.__exit__` edge resolution -/

/-- The outcome of `next(x.nodes_iter, None)`. -/
inductive IterFirst where
  | yields (n : Node)
  | stop
  | attrError

/-- `next(self.nodes_iter, None)` for a `Node`: the generator first
yields the owned member nodes in insertion order; when there are none it
moves on to `self.subgraphs`, whose elements are graphviz `Digraph`
handles (that is what `Cluster.__exit__` registers), and evaluating
`subgraph.nodes_iter` on one raises `AttributeError`; with neither, the
generator is exhausted and `next` returns the `None` default. -/
def Node.nodesIterFirst (n : Node) : IterFirst :=
  match n.nodes with
  | c :: _ => .yields c
  | [] => if n.subgraphs.isEmpty then .stop else .attrError

/-- The per-endpoint half of the `Diagram.__exit__` loop for the head
side: `cluster_node2 = next(node2.nodes_iter, None); if cluster_node2:
edge._attrs['lhead'] = node2.nodeid; node2 = cluster_node2`, followed by
the emission `self.dot.edge(node1.nodeid, node2.nodeid, **edge.attrs)`. -/
def Diagram.resolveHead (node1 : Node) (edge : Edge) (node2 : Node) :
    Except PyErr Stmt :=
  match node2.nodesIterFirst with
  | .attrError => .error .attributeError
  | .yields c2 =>
    let edge := { edge with _attrs := dset edge._attrs "lhead" node2.nodeid }
    .ok (Stmt.edgeStmt node1.nodeid c2.nodeid edge.attrs)
  | .stop => .ok (Stmt.edgeStmt node1.nodeid node2.nodeid edge.attrs)

/-- One iteration of the `Diagram.__exit__` loop over
`self.edges.items()`: the tail side (`cluster_node1` / `ltail`), then the
head side and the emission. -/
def Diagram.resolveEdge (node1 node2 : Node) (edge : Edge) :
    Except PyErr Stmt :=
  match node1.nodesIterFirst with
  | .attrError => .error .attributeError
  | .yields c1 =>
    let edge := { edge with _attrs := dset edge._attrs "ltail" node1.nodeid }
    Diagram.resolveHead c1 edge node2
  | .stop => Diagram.resolveHead node1 edge node2

/-- The full `Diagram.__exit__` loop: each deferred entry, in insertion
order, resolved and emitted. -/
def Diagram.exitEdges : List ((Node × Node) × Edge) → Except PyErr (List Stmt)
  | [] => .ok []
  | ((n1, n2), e) :: rest => do
    let s ← Diagram.resolveEdge n1 n2 e
    let ss ← Diagram.exitEdges rest
    .ok (s :: ss)

/-- `Diagram.__exit__` (up to the external `render`/file-removal calls):
`setdiagram(None)`, then the edge-resolution loop appends the emitted
edges to the graph body. -/
def Diagram.exit (d : Diagram) (ctx : Ctx) : Except PyErr (Diagram × Ctx) := do
  let ctx := setdiagram ctx none
  let ss ← Diagram.exitEdges d.edges
  .ok ({ d with dot := { d.dot with body := d.dot.body ++ ss } }, ctx)

/-! ## `Node.__init__`, `Node.connect` and the `Node.__exit__` rename -/

/-- `Node.__init__(label, nodeid=..., **attrs)` for the base `Node`
variant (no icon class attributes, so `_load_icon()` returns `None` and
the icon attribute block is skipped).  `genId` stands for the value
`self._rand_id()` would produce, passed in explicitly; `clsName` is
`self.__class__.__name__`, used by autolabel.  The returned `ScopeEnt` is
the parent the node registered itself on via `self._parent.node(self)`. -/
def Node.init (ctx : Ctx) (label : String) (nodeid : Option String)
    (genId : String) (clsName : String) (attrs : Dict) :
    Except PyErr (Node × ScopeEnt) := do
  let _id := nodeid.getD genId
  -- self._diagram = getdiagram(): raises EnvironmentError when unset ...
  let d ← getdiagram ctx
  -- ... and an explicit raise when it holds None
  match d with
  | none => .error .environmentError
  | some diag =>
    let label :=
      if diag.autolabel then
        if label ≠ "" then clsName ++ "\n" ++ label else clsName
      else label
    -- super().__init__(self.label): Cluster.__init__ with defaults
    let c ← Cluster.init ctx label "LR" []
    -- no icon on the base class, so self._attrs = {} before the update
    let _attrs := dupdate [] attrs
    let n : Node := .mk _id label _attrs [] [] c.dot
    match c._parent with
    | some p => .ok (n, p)
    | none => .error .environmentError

/-- `Node.connect(node, edge)`.  `nodeIsNode` / `edgeIsEdge` stand for
the two `isinstance` tests: on failure the source merely evaluates
`ValueError(...)` without `raise`, so the constructed error is discarded
and the method proceeds to `getdiagram().connect(self, node, edge)` and
returns `node` unconditionally. -/
def Node.connect (self node : Node) (edge : Edge)
    (nodeIsNode edgeIsEdge : Bool) (d : Diagram) :
    Except PyErr (Node × Diagram) :=
  let _discarded1 : Option PyErr := if nodeIsNode then none else some .valueError
  let _discarded2 : Option PyErr := if edgeIsEdge then none else some .valueError
  .ok (node, Diagram.connect d self node edge)

/-- The tail of `Node.__exit__` after the generic `Cluster.__exit__`:
`self._id = "cluster_" + self.nodeid` followed by
`self.dot.name = self.nodeid` (which reads the already-rewritten id). -/
def Node.exitRename (n : Node) : Node :=
  let newId := "cluster_" ++ n.nodeid
  .mk newId n.label n.nattrs n.nodes n.subgraphs { n.dot with name := newId }

/-! ## `Edge.connect` -/

/-- The dynamic type cases `Edge.connect` distinguishes on its
argument: a list of nodes, another edge, or a single node. -/
inductive ConnTarget where
  | nodeList (l : List Node)
  | edgeT (e : Edge)
  | nodeT (n : Node)

/-- What `Edge.connect` returns: the list (sequence case), the caller
edge itself (edge-merge and adopt cases), or the target node
(delegation case). -/
inductive ConnResult where
  | retList (l : List Node)
  | retEdge (e : Edge)
  | retNode (n : Node)

/-- `Edge.connect(other)`.  The active diagram `d` is threaded through
because the node cases reach `getdiagram().connect` via
`self.node.connect(...)`.  Returns the Python return value, the caller
edge's state after the call, and the updated diagram. -/
def Edge.connect (self : Edge) (other : ConnTarget) (d : Diagram) :
    Except PyErr (ConnResult × Edge × Diagram) :=
  match other with
  | .nodeList l =>
    match self.node with
    | none => .error .attributeError
    | some src => do
      let d ← l.foldlM (fun acc n => do
        let r ← Node.connect src n self true true acc
        pure r.2) d
      .ok (.retList l, self, d)
  | .edgeT e2 =>
    -- self._attrs = other._attrs.copy(); return self
    let self := { self with _attrs := e2._attrs }
    .ok (.retEdge self, self, d)
  | .nodeT n =>
    match self.node with
    | some src => do
      let r ← Node.connect src n self true true d
      .ok (.retNode r.1, self, r.2)
    | none =>
      let self := { self with node := some n }
      .ok (.retEdge self, self, d)

/-! ## Projections used to observe `Except` results in theorem statements -/

/-- The digraph state attached to a failed `Diagram.__init__`. -/
def errorDot : Except (PyErr × Digraph) Diagram → Option Digraph
  | .error (_, g) => some g
  | .ok _ => none

/-- The error kind of a failed `Diagram.__init__`. -/
def errorKind : Except (PyErr × Digraph) Diagram → Option PyErr
  | .error (e, _) => some e
  | .ok _ => none

/-! ## Concrete sample states used by counterexamples and witnesses -/

/-- A plain leaf node `a` (no members, no subgraphs). -/
def nodeA : Node := .mk "a" "A" [] [] [] (Digraph.fresh "cluster_A")

/-- A plain leaf node `b`. -/
def nodeB : Node := .mk "b" "B" [] [] [] (Digraph.fresh "cluster_B")

/-- A plain leaf node `c`, interior member of `containerP`. -/
def nodeC : Node := .mk "c" "C" [] [] [] (Digraph.fresh "cluster_C")

/-- A node that was entered and exited as a container: its identity has
already been rewritten to the boundary form `cluster_p` by
`Node.__exit__`, and it owns the interior member `nodeC`. -/
def containerP : Node := .mk "cluster_p" "P" [] [nodeC] [] (Digraph.fresh "cluster_p")

/-- A second container node owning `nodeB`. -/
def containerQ : Node := .mk "cluster_q" "Q" [] [nodeB] [] (Digraph.fresh "cluster_q")

/-- An `Edge()` with no explicit attributes and both flags clear. -/
def plainEdge : Edge := { node := none, forward := false, reverse := false, _attrs := [] }

/-- A freshly opened diagram with an empty graph body and an empty
deferred edge map. -/
def sampleDiagram : Diagram :=
  { name := "d", filename := "d", dot := Digraph.fresh "d", edges := [],
    outformat := .single "png", showFlag := true, autolabel := false }

/-- The diagram reference held by the diagram context variable in the
sample scope states. -/
def diagD : DiagRef := ⟨"d", false⟩

/-- A context in which a diagram is active and the cluster variable was
never set: the state right after `Diagram.__enter__` at top level. -/
def ctx0 : Ctx := ⟨some (some diagD), none⟩

/-! ## Theorems for the claims -/

/-- C7: reading `Edge.attrs` yields exactly one derived `dir` value that
is a pure function of only the `(forward, reverse)` flag pair — both set
gives "both", forward only "forward", reverse only "back", neither
"none" — and no other attribute of the edge influences it (the lookup
result equals `edgeDirection e.forward e.reverse` for every `_attrs`). -/
theorem c7_edge_direction (e : Edge) :
    dlookup "dir" e.attrs = some (edgeDirection e.forward e.reverse) ∧
    edgeDirection true true = "both" ∧
    edgeDirection true false = "forward" ∧
    edgeDirection false true = "back" ∧
    edgeDirection false false = "none" :=
  ⟨dlookup_dset_self _ _ _, rfl, rfl, rfl, rfl⟩

/-- C10: `Node.connect` never raises a type error: whatever the two
`isinstance` outcomes are, the constructed `ValueError` is discarded and
the call registers the connection on the active diagram and returns the
target node — the result is independent of both checks. -/
theorem c10_node_connect_ignores_type_checks
    (self node : Node) (edge : Edge) (nodeIsNode edgeIsEdge : Bool) (d : Diagram) :
    Node.connect self node edge nodeIsNode edgeIsEdge d
      = .ok (node, Diagram.connect d self node edge) := rfl

/-- C1: evaluating `Diagram.connect` at a concrete open diagram shows it
draws the edge into the rendering graph immediately and leaves the
deferred edge map empty, so the `__exit__` resolution loop has nothing to
do — contradicting the claim (and the spec's intent, which the dead
`self.edges` machinery in the source documents). -/
theorem c1_connect_draws_immediately :
    (Diagram.connect sampleDiagram nodeA nodeB plainEdge).dot.body
      = [Stmt.edgeStmt "a" "b" [("dir", "none")]] ∧
    (Diagram.connect sampleDiagram nodeA nodeB plainEdge).edges = [] ∧
    Diagram.exitEdges (Diagram.connect sampleDiagram nodeA nodeB plainEdge).edges
      = .ok [] :=
  ⟨rfl, rfl, rfl⟩

/-- C4: `Node.__exit__` rewrites the node's identity to the boundary
form `"cluster_" ++ original` and renames the graph handle to the same
boundary identity; the transform is a fixed prefix, hence invertible —
dropping the 8 prefix characters recovers the original identity, and the
rewrite is injective. -/
theorem c4_boundary_identity (n : Node) :
    (Node.exitRename n).nodeid = "cluster_" ++ n.nodeid ∧
    (Node.exitRename n).dot.name = "cluster_" ++ n.nodeid ∧
    ((Node.exitRename n).nodeid).data.take 8 = "cluster_".data ∧
    String.mk (((Node.exitRename n).nodeid).data.drop 8) = n.nodeid ∧
    (∀ m : Node, (Node.exitRename m).nodeid = (Node.exitRename n).nodeid →
        m.nodeid = n.nodeid) := by
  have hdata : ∀ s : String, ("cluster_" ++ s).data = "cluster_".data ++ s.data :=
    fun s => String.data_append "cluster_" s
  have hlen : ("cluster_".data).length = 8 := rfl
  refine ⟨rfl, rfl, ?_, ?_, ?_⟩
  · show ("cluster_" ++ n.nodeid).data.take 8 = "cluster_".data
    rw [hdata, List.take_left' hlen]
  · show String.mk (("cluster_" ++ n.nodeid).data.drop 8) = n.nodeid
    rw [hdata, List.drop_left' hlen]
  · intro m hm
    have : ("cluster_" ++ m.nodeid).data = ("cluster_" ++ n.nodeid).data := by
      show (Node.exitRename m).nodeid.data = (Node.exitRename n).nodeid.data
      rw [hm]
    rw [hdata, hdata] at this
    have := List.append_cancel_left this
    calc m.nodeid = String.mk m.nodeid.data := rfl
      _ = String.mk n.nodeid.data := by rw [this]
      _ = n.nodeid := rfl

/-- C4 witness: the boundary rewrite evaluated at the concrete node
`nodeA` (original identity `"a"`), with the injectivity hypothesis
discharged at `m := nodeA`. -/
theorem c4_boundary_identity_witness :
    (Node.exitRename nodeA).nodeid = "cluster_a" ∧ nodeA.nodeid = nodeA.nodeid :=
  ⟨((c4_boundary_identity nodeA).1).trans rfl,
   (c4_boundary_identity nodeA).2.2.2.2 nodeA rfl⟩

/-- C3: when both endpoints are plain leaves (no owned members, no
registered subgraphs), the `__exit__` resolution emits the edge with the
two nodes' own identities unchanged and the edge's attributes untouched
(in particular no `ltail`/`lhead` hint is added), and the immediate
`Diagram.connect` path likewise targets the two identities unchanged. -/
theorem c3_leaf_edge_unchanged (n1 n2 : Node) (e : Edge) (d : Diagram)
    (h1 : n1.nodes = []) (h2 : n1.subgraphs = [])
    (h3 : n2.nodes = []) (h4 : n2.subgraphs = []) :
    Diagram.resolveEdge n1 n2 e = .ok (Stmt.edgeStmt n1.nodeid n2.nodeid e.attrs) ∧
    (Diagram.connect d n1 n2 e).dot.body
      = d.dot.body ++ [Stmt.edgeStmt n1.nodeid n2.nodeid e.attrs] ∧
    (dlookup "ltail" e._attrs = none → dlookup "ltail" e.attrs = none) ∧
    (dlookup "lhead" e._attrs = none → dlookup "lhead" e.attrs = none) := by
  have hs1 : n1.nodesIterFirst = .stop := by
    simp [Node.nodesIterFirst, h1, h2]
  have hs2 : n2.nodesIterFirst = .stop := by
    simp [Node.nodesIterFirst, h3, h4]
  refine ⟨?_, rfl, ?_, ?_⟩
  · simp [Diagram.resolveEdge, hs1, Diagram.resolveHead, hs2]
  · intro h
    rw [Edge.attrs, dlookup_dset_ne _ _ _ _ (by decide), h]
  · intro h
    rw [Edge.attrs, dlookup_dset_ne _ _ _ _ (by decide), h]

/-- C3 witness: the leaf/leaf resolution and immediate connection
evaluated at the concrete leaves `nodeA`, `nodeB`. -/
theorem c3_leaf_edge_unchanged_witness :
    Diagram.resolveEdge nodeA nodeB plainEdge
      = .ok (Stmt.edgeStmt "a" "b" [("dir", "none")]) ∧
    dlookup "ltail" plainEdge.attrs = none :=
  ⟨(c3_leaf_edge_unchanged nodeA nodeB plainEdge sampleDiagram rfl rfl rfl rfl).1,
   (c3_leaf_edge_unchanged nodeA nodeB plainEdge sampleDiagram rfl rfl rfl rfl).2.2.1 rfl⟩

/-- C2 counterexample: resolving a deferred edge whose head endpoint is
the container `containerP` (boundary identity `"cluster_p"`, first owned
member `nodeC` with identity `"c"`) emits an edge whose effective target
is the interior member's identity `"c"`, not the container's boundary
identity `"cluster_p"` — the boundary identity only lands in the `lhead`
hint, contradicting the claim's final sentence. -/
theorem c2_counterexample_interior_endpoint :
    Diagram.resolveEdge nodeA containerP plainEdge
      = .ok (Stmt.edgeStmt "a" "c" [("lhead", "cluster_p"), ("dir", "none")]) ∧
    ("c" : String) ≠ "cluster_p" :=
  ⟨rfl, by decide⟩

/-- C2 (amended): at diagram-scope exit each deferred entry is resolved
in insertion order; for an endpoint whose `nodes_iter` yields a first
transitively-owned member, the edge's `ltail`/`lhead` hint is set to that
endpoint's own (boundary) identity and the effective endpoint of the
emitted edge is the yielded interior member, not the boundary. -/
theorem c2_compound_edge_resolution (n1 n2 c1 c2 : Node) (e : Edge)
    (h1 : n1.nodesIterFirst = .yields c1) (h2 : n2.nodesIterFirst = .yields c2) :
    Diagram.resolveEdge n1 n2 e
      = .ok (Stmt.edgeStmt c1.nodeid c2.nodeid
          (Edge.attrs { e with
            _attrs := dset (dset e._attrs "ltail" n1.nodeid) "lhead" n2.nodeid })) ∧
    dlookup "ltail" (Edge.attrs { e with
        _attrs := dset (dset e._attrs "ltail" n1.nodeid) "lhead" n2.nodeid })
      = some n1.nodeid ∧
    dlookup "lhead" (Edge.attrs { e with
        _attrs := dset (dset e._attrs "ltail" n1.nodeid) "lhead" n2.nodeid })
      = some n2.nodeid ∧
    (∀ rest ss, Diagram.exitEdges rest = .ok ss →
      Diagram.exitEdges (((n1, n2), e) :: rest)
        = .ok (Stmt.edgeStmt c1.nodeid c2.nodeid
            (Edge.attrs { e with
              _attrs := dset (dset e._attrs "ltail" n1.nodeid) "lhead" n2.nodeid }) :: ss)) := by
  have hres : Diagram.resolveEdge n1 n2 e
      = .ok (Stmt.edgeStmt c1.nodeid c2.nodeid
          (Edge.attrs { e with
            _attrs := dset (dset e._attrs "ltail" n1.nodeid) "lhead" n2.nodeid })) := by
    simp [Diagram.resolveEdge, h1, Diagram.resolveHead, h2]
  refine ⟨hres, ?_, ?_, ?_⟩
  · rw [Edge.attrs, dlookup_dset_ne _ _ _ _ (by decide),
      dlookup_dset_ne _ _ _ _ (by decide), dlookup_dset_self]
  · rw [Edge.attrs, dlookup_dset_ne _ _ _ _ (by decide), dlookup_dset_self]
  · intro rest ss h
    simp only [Diagram.exitEdges, hres, h]
    rfl

/-- C2 witness: the amended resolution evaluated at the concrete
containers `containerP` (yielding `nodeC`) and `containerQ` (yielding
`nodeB`), with a singleton remainder list. -/
theorem c2_compound_edge_resolution_witness :
    Diagram.resolveEdge containerP containerQ plainEdge
      = .ok (Stmt.edgeStmt "c" "b"
          [("ltail", "cluster_p"), ("lhead", "cluster_q"), ("dir", "none")]) ∧
    Diagram.exitEdges [((containerP, containerQ), plainEdge)]
      = .ok [Stmt.edgeStmt "c" "b"
          [("ltail", "cluster_p"), ("lhead", "cluster_q"), ("dir", "none")]] :=
  ⟨(c2_compound_edge_resolution containerP containerQ nodeC nodeB plainEdge rfl rfl).1,
   (c2_compound_edge_resolution containerP containerQ nodeC nodeB plainEdge rfl rfl).2.2.2
     [] [] rfl⟩

/-- C5 counterexample: constructing a `Cluster` (grouping) while neither
a diagram scope nor a grouping scope is active (both context variables
unset) does not fail — the `EnvironmentError` from `getdiagram()` is
caught by `Cluster.__init__`, and construction succeeds silently with
`_parent = None`. -/
theorem c5_counterexample_parentless_cluster :
    (Cluster.init ⟨none, none⟩ "cluster" "LR" []).map (fun c => c._parent)
      = Except.ok none := rfl

/-- C5 (amended): constructing a `Node` with no active diagram scope —
whether the diagram context variable was never set or was reset to
`None` — fails with the `ScopeError` (`EnvironmentError`); but
constructing a `Grouping` with neither a diagram nor a grouping scope
active succeeds silently with no parent: the scope-lookup failure is
swallowed by the `try/except` in `Cluster.__init__`. -/
theorem c5_scope_errors :
    (∀ ctx label nodeid genId clsName attrs, ctx.diagramVar = none →
        Node.init ctx label nodeid genId clsName attrs = .error .environmentError) ∧
    (∀ ctx label nodeid genId clsName attrs, ctx.diagramVar = some none →
        Node.init ctx label nodeid genId clsName attrs = .error .environmentError) ∧
    (∀ ctx label direction ga, getcluster ctx = none → ctx.diagramVar = none →
        validate_direction direction = true →
        (Cluster.init ctx label direction ga).map (fun c => c._parent) = .ok none) ∧
    (∀ ctx label direction ga, getcluster ctx = none → ctx.diagramVar = some none →
        validate_direction direction = true →
        (Cluster.init ctx label direction ga).map (fun c => c._parent) = .ok none) := by
  refine ⟨?_, ?_, ?_, ?_⟩
  · intro ctx label nodeid genId clsName attrs h
    simp only [Node.init, getdiagram, h]
    rfl
  · intro ctx label nodeid genId clsName attrs h
    simp only [Node.init, getdiagram, h]
    rfl
  · intro ctx label direction ga hc hd hdir
    simp [Cluster.init, hdir, Except.map, Cluster.parentLookup, hc, getdiagram, hd]
  · intro ctx label direction ga hc hd hdir
    simp [Cluster.init, hdir, Except.map, Cluster.parentLookup, hc, getdiagram, hd]

/-- C5 witness: the scope failures and the silent grouping construction
evaluated at concrete contexts — an unset diagram variable and one reset
to `None`. -/
theorem c5_scope_errors_witness :
    Node.init ⟨none, none⟩ "n" none "gid" "Node" [] = .error .environmentError ∧
    Node.init ⟨some none, none⟩ "n" none "gid" "Node" [] = .error .environmentError ∧
    (Cluster.init ⟨none, none⟩ "g" "LR" []).map (fun c => c._parent) = .ok none ∧
    (Cluster.init ⟨some none, some none⟩ "g" "LR" []).map (fun c => c._parent) = .ok none :=
  ⟨c5_scope_errors.1 ⟨none, none⟩ "n" none "gid" "Node" [] rfl,
   c5_scope_errors.2.1 ⟨some none, none⟩ "n" none "gid" "Node" [] rfl,
   c5_scope_errors.2.2.1 ⟨none, none⟩ "g" "LR" [] rfl rfl rfl,
   c5_scope_errors.2.2.2 ⟨some none, some none⟩ "g" "LR" [] rfl rfl rfl⟩

/-- C9 counterexample: a grouping constructed and entered at top level
directly under a diagram sees the active-grouping slot hold `none`
before entry, yet after its exit the slot holds the diagram entity
(`Cluster.__exit__` runs `setcluster(self._parent)` and `_parent` is the
diagram) — not the pre-entry `none` value the claim requires. -/
theorem c9_counterexample_slot_not_restored :
    (Cluster.init ctx0 "g" "LR" []).map
        (fun c => getcluster (Cluster.exitCtx c (Cluster.enter c ctx0)))
      = .ok (some (.diagramE diagD)) ∧
    getcluster ctx0 = none ∧
    some (ScopeEnt.diagramE diagD) ≠ (none : Option ScopeEnt) :=
  ⟨rfl, rfl, by decide⟩

/-- C9 (amended): exiting a grouping scope sets the active-grouping slot
to the parent captured at construction time — the then-active grouping
if one was set, else the active diagram.  For a scope constructed and
entered while a grouping is active this restores the pre-entry value,
but a scope entered at top level leaves the slot holding the diagram
entity rather than the unset/none value. -/
theorem c9_slot_stack_discipline :
    (∀ ctx2 c, getcluster (Cluster.exitCtx c (Cluster.enter c ctx2)) = c._parent) ∧
    (∀ ctx label direction ga g, getcluster ctx = some g →
        validate_direction direction = true →
        (Cluster.init ctx label direction ga).map
            (fun c => getcluster (Cluster.exitCtx c (Cluster.enter c ctx)))
          = .ok (some g)) ∧
    (∀ ctx label direction ga dref, getcluster ctx = none →
        ctx.diagramVar = some (some dref) →
        validate_direction direction = true →
        (Cluster.init ctx label direction ga).map
            (fun c => getcluster (Cluster.exitCtx c (Cluster.enter c ctx)))
          = .ok (some (.diagramE dref))) := by
  refine ⟨fun ctx2 c => rfl, ?_, ?_⟩
  · intro ctx label direction ga g hg hdir
    simp [Cluster.init, hdir, Except.map, Cluster.parentLookup, hg,
      Cluster.exitCtx, Cluster.enter, getcluster_setcluster]
  · intro ctx label direction ga dref hc hd hdir
    simp [Cluster.init, hdir, Except.map, Cluster.parentLookup, hc, getdiagram, hd,
      Cluster.exitCtx, Cluster.enter, getcluster_setcluster]

/-- C9 witness: the slot value after enter/exit, for a grouping nested
under an active grouping (restored to it) and for a top-level grouping
(left holding the diagram). -/
theorem c9_slot_stack_discipline_witness :
    (Cluster.init ⟨some (some diagD), some (some (.clusterE "outer" 1))⟩ "g2" "LR" []).map
        (fun c => getcluster (Cluster.exitCtx c
          (Cluster.enter c ⟨some (some diagD), some (some (.clusterE "outer" 1))⟩)))
      = .ok (some (.clusterE "outer" 1)) ∧
    (Cluster.init ctx0 "g" "LR" []).map
        (fun c => getcluster (Cluster.exitCtx c (Cluster.enter c ctx0)))
      = .ok (some (.diagramE diagD)) :=
  ⟨c9_slot_stack_discipline.2.1 ⟨some (some diagD), some (some (.clusterE "outer" 1))⟩
      "g2" "LR" [] (.clusterE "outer" 1) rfl rfl,
   c9_slot_stack_discipline.2.2 ctx0 "g" "LR" [] diagD rfl rfl rfl⟩

/-- C6 counterexample: constructing a diagram with the invalid curve
style `"zigzag"` does raise the `ValueError`, but only after the graph
has already been mutated: at the moment of the raise the graph body
holds the `compound` attribute statement and the graph attributes hold
the defaults (`pad`), the label, and the still-default `splines` value —
whereas a fresh graph holds none of them.  So the error is not raised
"before any state mutation", and validation does not precede attribute
application. -/
theorem c6_counterexample_mutation_before_error :
    errorKind (Diagram.init "Web" "" "LR" "zigzag" (.single "png") false true false [] [] [])
      = some .valueError ∧
    (errorDot (Diagram.init "Web" "" "LR" "zigzag" (.single "png") false true false [] [] [])).map
        (fun g => dlookup "pad" g.graph_attr) = some (some "2.0") ∧
    (errorDot (Diagram.init "Web" "" "LR" "zigzag" (.single "png") false true false [] [] [])).map
        (fun g => dlookup "label" g.graph_attr) = some (some "Web") ∧
    (errorDot (Diagram.init "Web" "" "LR" "zigzag" (.single "png") false true false [] [] [])).map
        (fun g => dlookup "splines" g.graph_attr) = some (some "ortho") ∧
    (errorDot (Diagram.init "Web" "" "LR" "zigzag" (.single "png") false true false [] [] [])).map
        (fun g => g.body) = some [Stmt.attrStmt [("compound", "true")]] ∧
    dlookup "pad" (Digraph.fresh "Web").graph_attr = none :=
  ⟨rfl, rfl, rfl, rfl, rfl, rfl⟩

/-- C6 (amended): an invalid direction, curve style or output format
raises a `ValueError` during construction, before any node or edge
registration (the body never holds more than the `compound` attribute
statement) and before the caller-supplied attribute maps are merged (the
result does not depend on them) — but after the default graph, node and
edge attributes, the `compound` attribute and the label have been
applied; direction is validated first, then curve style, then output
format. -/
theorem c6_config_validation_order (name filename direction curvestyle : String)
    (of : OutFormat) (al sh st : Bool) (ga na ea : Dict) :
    (validate_direction direction = false →
      Diagram.init name filename direction curvestyle of al sh st ga na ea
        = Diagram.init name filename direction curvestyle of al sh st [] [] [] ∧
      errorKind (Diagram.init name filename direction curvestyle of al sh st ga na ea)
        = some .valueError ∧
      (errorDot (Diagram.init name filename direction curvestyle of al sh st ga na ea)).map
          (fun g => dlookup "pad" g.graph_attr) = some (some "2.0") ∧
      (errorDot (Diagram.init name filename direction curvestyle of al sh st ga na ea)).map
          (fun g => dlookup "rankdir" g.graph_attr) = some none ∧
      (errorDot (Diagram.init name filename direction curvestyle of al sh st ga na ea)).map
          (fun g => g.body) = some [Stmt.attrStmt [("compound", "true")]]) ∧
    (validate_direction direction = true → validate_curvestyle curvestyle = false →
      Diagram.init name filename direction curvestyle of al sh st ga na ea
        = Diagram.init name filename direction curvestyle of al sh st [] [] [] ∧
      errorKind (Diagram.init name filename direction curvestyle of al sh st ga na ea)
        = some .valueError ∧
      (errorDot (Diagram.init name filename direction curvestyle of al sh st ga na ea)).map
          (fun g => dlookup "splines" g.graph_attr) = some (some "ortho") ∧
      (errorDot (Diagram.init name filename direction curvestyle of al sh st ga na ea)).map
          (fun g => g.body) = some [Stmt.attrStmt [("compound", "true")]]) ∧
    (validate_direction direction = true → validate_curvestyle curvestyle = true →
        outformatOk of = false →
      Diagram.init name filename direction curvestyle of al sh st ga na ea
        = Diagram.init name filename direction curvestyle of al sh st [] [] [] ∧
      errorKind (Diagram.init name filename direction curvestyle of al sh st ga na ea)
        = some .valueError ∧
      (errorDot (Diagram.init name filename direction curvestyle of al sh st ga na ea)).map
          (fun g => g.body) = some [Stmt.attrStmt [("compound", "true")]]) := by
  refine ⟨?_, ?_, ?_⟩
  · intro h
    simp only [Diagram.init, h]
    exact ⟨rfl, rfl, rfl, rfl, rfl⟩
  · intro h1 h2
    simp only [Diagram.init, h1, h2]
    exact ⟨rfl, rfl, rfl, rfl⟩
  · intro h1 h2 h3
    simp only [Diagram.init, h1, h2, h3]
    exact ⟨rfl, rfl, rfl⟩

/-- C6 witness: the three validation failures evaluated at concrete
invalid inputs — direction `"XX"`, curve style `"zigzag"` and output
format `"bmp"`. -/
theorem c6_config_validation_order_witness :
    errorKind (Diagram.init "d" "" "XX" "ortho" (.single "png") false true false [] [] [])
      = some .valueError ∧
    errorKind (Diagram.init "d" "" "LR" "zigzag" (.single "png") false true false [] [] [])
      = some .valueError ∧
    errorKind (Diagram.init "d" "" "LR" "ortho" (.single "bmp") false true false [] [] [])
      = some .valueError :=
  ⟨((c6_config_validation_order "d" "" "XX" "ortho" (.single "png")
      false true false [] [] []).1 (by decide)).2.1,
   ((c6_config_validation_order "d" "" "LR" "zigzag" (.single "png")
      false true false [] [] []).2.1 (by decide) (by decide)).2.1,
   ((c6_config_validation_order "d" "" "LR" "ortho" (.single "bmp")
      false true false [] [] []).2.2 (by decide) (by decide) (by decide)).2.1⟩

/-- The sequence case of `Edge.connect` loops
`self.node.connect(node, self)` over the list; since `Node.connect`
never fails, the monadic fold is the plain fold of `Diagram.connect`. -/
theorem foldlM_node_connect (src : Node) (e : Edge) (l : List Node) (d : Diagram) :
    (l.foldlM (fun acc n => do
        let r ← Node.connect src n e true true acc
        pure r.2) d : Except PyErr Diagram)
      = .ok (l.foldl (fun acc x => Diagram.connect acc src x e) d) := by
  induction l generalizing d with
  | nil => rfl
  | cons hd tl ih =>
    simp only [List.foldlM, List.foldl]
    exact ih (Diagram.connect d src hd e)

/-- C8: the case analysis of `Edge.connect(target)` — a sequence target
connects the edge's source node to every element and returns the
sequence; an edge target replaces the caller's attribute state with the
later edge's and returns the caller; a node target with a source set
delegates to `sourceNode.connect(target, self)` (registering the edge on
the diagram and returning the target); a node target with no source is
adopted as the edge's `sourceNode` and the caller is returned. -/
theorem c8_edge_connect_cases (eS eN : Edge) (src n : Node) (l : List Node)
    (e2 : Edge) (d : Diagram) (hS : eS.node = some src) (hN : eN.node = none) :
    Edge.connect eS (.nodeList l) d
      = .ok (.retList l, eS, l.foldl (fun acc x => Diagram.connect acc src x eS) d) ∧
    Edge.connect eS (.edgeT e2) d
      = .ok (.retEdge { eS with _attrs := e2._attrs },
             { eS with _attrs := e2._attrs }, d) ∧
    Edge.connect eS (.nodeT n) d
      = .ok (.retNode n, eS, Diagram.connect d src n eS) ∧
    Edge.connect eN (.nodeT n) d
      = .ok (.retEdge { eN with node := some n },
             { eN with node := some n }, d) := by
  refine ⟨?_, rfl, ?_, ?_⟩
  · simp only [Edge.connect, hS, foldlM_node_connect]
    rfl
  · simp only [Edge.connect, hS, Node.connect]
    rfl
  · simp only [Edge.connect, hN]

/-- C8 witness: the delegation case (source already bound to `nodeA`)
and the adoption case (no source yet) evaluated at concrete edges. -/
theorem c8_edge_connect_cases_witness :
    Edge.connect { node := some nodeA, forward := true, reverse := false, _attrs := [] }
        (.nodeT nodeB) sampleDiagram
      = .ok (.retNode nodeB,
             { node := some nodeA, forward := true, reverse := false, _attrs := [] },
             Diagram.connect sampleDiagram nodeA nodeB
               { node := some nodeA, forward := true, reverse := false, _attrs := [] }) ∧
    Edge.connect plainEdge (.nodeT nodeB) sampleDiagram
      = .ok (.retEdge { plainEdge with node := some nodeB },
             { plainEdge with node := some nodeB }, sampleDiagram) :=
  ⟨(c8_edge_connect_cases
      { node := some nodeA, forward := true, reverse := false, _attrs := [] }
      plainEdge nodeA nodeB [] plainEdge sampleDiagram rfl rfl).2.2.1,
   (c8_edge_connect_cases
      { node := some nodeA, forward := true, reverse := false, _attrs := [] }
      plainEdge nodeA nodeB [] plainEdge sampleDiagram rfl rfl).2.2.2⟩

end Diagrams
